import Mathlib

/-!
Verification development for the `mqt-dashboard` data-collection-and-aggregation
pipeline (`src/mqt/dashboard/data_collection.py`, `visualization.py`, `app.py`).

The Python sources are shallowly embedded: the fixed repository registry becomes
a concrete Lean list, each fetcher becomes a pure function over an explicit
sequence of HTTP responses, the pandas transformations of `visualization.py`
become list transformations over a row type, and Python numeric formatting is
modelled over exact integers/rationals (string `:.1f` rendering is modelled as
exact round-half-even to one decimal).
-/

namespace MqtDashboard

/-- One entry of the `repos` registry of `data_collection.py`: a dict with keys
`github_repo`, `org` and an optional `pypi_package`. -/
structure RepoEntry where
  github_repo : String
  org : String
  pypi_package : Option String
deriving DecidableEq

/-- The static registry `repos` of `data_collection.py` (lines 16-42),
entry for entry. -/
def repos : List RepoEntry := [
  ⟨"core", "munich-quantum-toolkit", some "mqt-core"⟩,
  ⟨"ddsim", "munich-quantum-toolkit", some "mqt-ddsim"⟩,
  ⟨"qmap", "munich-quantum-toolkit", some "mqt-qmap"⟩,
  ⟨"qcec", "munich-quantum-toolkit", some "mqt-qcec"⟩,
  ⟨"qecc", "munich-quantum-toolkit", some "mqt-qecc"⟩,
  ⟨"bench", "munich-quantum-toolkit", some "mqt-bench"⟩,
  ⟨"predictor", "munich-quantum-toolkit", some "mqt-predictor"⟩,
  ⟨"syrec", "munich-quantum-toolkit", some "mqt-syrec"⟩,
  ⟨"qusat", "munich-quantum-toolkit", some "mqt-qusat"⟩,
  ⟨"debugger", "munich-quantum-toolkit", some "mqt-debugger"⟩,
  ⟨"yaqs", "munich-quantum-toolkit", some "mqt-yaqs"⟩,
  ⟨"naviz", "munich-quantum-toolkit", none⟩,
  ⟨"problemsolver", "munich-quantum-toolkit", some "mqt-problemsolver"⟩,
  ⟨"qudits", "munich-quantum-toolkit", some "mqt-qudits"⟩,
  ⟨"ddvis", "munich-quantum-toolkit", none⟩,
  ⟨"workflows", "munich-quantum-toolkit", none⟩,
  ⟨"templates", "munich-quantum-toolkit", none⟩,
  ⟨".github", "munich-quantum-toolkit", none⟩,
  ⟨"mqt-qao", "cda-tum", some "mqt-qao"⟩,
  ⟨"mqt-planqk", "cda-tum", none⟩,
  ⟨"mqt-qubomaker", "cda-tum", some "mqt-qubomaker"⟩,
  ⟨"mqt-ion-shuttler", "cda-tum", some "mqt-ionshuttler"⟩,
  ⟨"mqt-dasqa", "cda-tum", none⟩]

/-- The dict returned by `get_github_data`: stars, latest release tag and
publish date (the two string fields may hold the sentinel "No release"). -/
structure GithubData where
  stars : Int
  latest_release_version : String
  published_at : String
deriving DecidableEq

/-- An HTTP response as `get_pepy_data` observes it: a status code and the
value that `.json()` would return (the body type is a parameter since
`get_pepy_data` passes the payload through unexamined). -/
structure HttpResponse (α : Type) where
  status_code : Nat
  json : α
deriving DecidableEq

/-- Embedding of `get_pepy_data`'s retry loop (`data_collection.py` lines
88-95).  The input list is the sequence of responses the aggregate service
would return to successive requests.  The loop sleeps 60 seconds after every
HTTP 429 response and retries; on the first non-429 response it breaks and
returns that response's JSON payload.  The result records the sleeps performed
(one `60` entry per 429 seen) together with the returned payload; `none` means
the supplied response sequence was exhausted with every response a 429, i.e.
the Python loop is still retrying (there is no attempt bound). -/
def get_pepy_data {α : Type} : List (HttpResponse α) → Option (List Nat × α)
  | [] => none
  | r :: rs =>
    if r.status_code = 429 then
      match get_pepy_data rs with
      | some (sleeps, payload) => some (60 :: sleeps, payload)
      | none => none
    else
      some ([], r.json)

/-- The parsed body of the pypistats "recent" endpoint as `get_pypi_data` uses
it: `downloads.get("data", {})` — a dict that may lack the `data` key, whose
value is itself a dict of integer counters. -/
structure PyPIStatsBody where
  data : Option (List (String × Int))
deriving DecidableEq

/-- Python `dict.get(key, default)` on a string-keyed dict of integers. -/
def dict_getD (d : List (String × Int)) (key : String) (default : Int) : Int :=
  (d.lookup key).getD default

/-- The dict returned by `get_pypi_data`. -/
structure DownloadCounts where
  daily_downloads : Int
  weekly_downloads : Int
  monthly_downloads : Int
  total_downloads : Int
deriving DecidableEq

/-- Embedding of `get_pypi_data` (`data_collection.py` lines 98-117).  The
pypistats response and the sequence of aggregate-service (pepy) responses are
explicit inputs.  The pypistats status code is never inspected by the source;
only its parsed body is used.  Each of the three recent counters defaults to 0
when absent, and `total_downloads` defaults to 0 when the pepy payload lacks
the key.  The result is `none` exactly when the pepy retry loop never exits
(every supplied pepy response was a 429). -/
def get_pypi_data (statsResponse : HttpResponse PyPIStatsBody)
    (pepyResponses : List (HttpResponse (List (String × Int)))) :
    Option DownloadCounts :=
  let downloads_data := statsResponse.json.data.getD []
  match get_pepy_data pepyResponses with
  | none => none
  | some (_, pepy_data) =>
    some {
      daily_downloads := dict_getD downloads_data "last_day" 0,
      weekly_downloads := dict_getD downloads_data "last_week" 0,
      monthly_downloads := dict_getD downloads_data "last_month" 0,
      total_downloads := dict_getD pepy_data "total_downloads" 0 }

/-- One row of the persisted dataset `data/mqt.csv`: a Metrics Snapshot.  The
four download fields are `Option Int` because `collect_data` stores `None`
(serialized as an empty CSV cell, read back as NaN) for repositories without a
`pypi_package`. -/
structure Snapshot where
  timestamp : Nat
  repo : String
  stars : Int
  latest_release_version : String
  published_at : String
  daily_downloads : Option Int
  weekly_downloads : Option Int
  monthly_downloads : Option Int
  total_downloads : Option Int
deriving DecidableEq

/-- The body of `collect_data`'s loop (`data_collection.py` lines 128-155) for
one registry entry.  The two fetchers are passed as oracles `gh` (the result of
`get_github_data org repo`) and `py` (the result of a successful
`get_pypi_data package`): the loop runs them only when it needs them, and a
repository without a `pypi_package` gets four `None` download fields and keeps
its GitHub name as `repo_identifier`, while a packaged repository uses the
PyPI package name as `repo_identifier`. -/
def collect_row (timestamp : Nat) (gh : String → String → GithubData)
    (py : String → DownloadCounts) (entry : RepoEntry) : Snapshot :=
  let github_data := gh entry.org entry.github_repo
  match entry.pypi_package with
  | some pypi_name =>
    let pypi_data := py pypi_name
    { timestamp := timestamp,
      repo := pypi_name,
      stars := github_data.stars,
      latest_release_version := github_data.latest_release_version,
      published_at := github_data.published_at,
      daily_downloads := some pypi_data.daily_downloads,
      weekly_downloads := some pypi_data.weekly_downloads,
      monthly_downloads := some pypi_data.monthly_downloads,
      total_downloads := some pypi_data.total_downloads }
  | none =>
    { timestamp := timestamp,
      repo := entry.github_repo,
      stars := github_data.stars,
      latest_release_version := github_data.latest_release_version,
      published_at := github_data.published_at,
      daily_downloads := none,
      weekly_downloads := none,
      monthly_downloads := none,
      total_downloads := none }

/-- Embedding of `collect_data` (`data_collection.py` lines 120-158): one
timestamp captured before the loop, one Snapshot per registry entry in registry
order. -/
def collect_data (timestamp : Nat) (gh : String → String → GithubData)
    (py : String → DownloadCounts) : List Snapshot :=
  repos.map (collect_row timestamp gh py)

/-- Embedding of `collect_data`'s persistence step: `repo_data.to_csv("data/mqt.csv")`
(`data_collection.py` line 157) replaces the file's content with the new batch.
The prior file content `old` is an explicit argument so that the claim about it
can be stated; the source never reads it, so the result does not depend on it. -/
def collect_data_write (old : List Snapshot) (timestamp : Nat)
    (gh : String → String → GithubData) (py : String → DownloadCounts) :
    List Snapshot :=
  let _ := old
  collect_data timestamp gh py

/-- Round-half-even (banker's rounding, Python's default for string
formatting) of the rational `a / b` to the nearest integer, for naturals with
`b > 0`. -/
def roundHalfEvenDiv (a b : Nat) : Nat :=
  let q := a / b
  let r := a % b
  if 2 * r < b then q
  else if b < 2 * r then q + 1
  else if q % 2 = 0 then q else q + 1

/-- `⌊log₂ n⌋` (0 for `n = 0`), computed by structural recursion on a fuel
argument so that it reduces inside the kernel (the halving terminates long
before the fuel runs out). -/
def natLog2Aux : Nat → Nat → Nat
  | 0, _ => 0
  | fuel + 1, n => if 2 ≤ n then natLog2Aux fuel (n / 2) + 1 else 0

/-- `⌊log₂ n⌋` for `n ≥ 1` (and 0 for `n = 0`). -/
def natLog2 (n : Nat) : Nat := natLog2Aux n n

/-- CPython's conversion of a non-negative `int` to a `float`: the nearest
IEEE-754 binary64 double, ties-to-even.  An integer's nearest double is itself
an integer (for `n < 2^53` it is `n` exactly; above that, `n` is rounded to a
53-bit significand times a power of two), so the result is a `Nat`.  `none`
models the OverflowError CPython raises when the rounded value reaches
`2^1024`, i.e. for integers at or beyond `2^1024 - 2^970`. -/
def roundNatToDouble (n : Nat) : Option Nat :=
  if n < 2 ^ 53 then some n
  else
    let shift := natLog2 n - 52
    let q := n / 2 ^ shift
    let r := n % 2 ^ shift
    let m :=
      if 2 * r < 2 ^ shift then q
      else if 2 ^ shift < 2 * r then q + 1
      else if q % 2 = 0 then q else q + 1
    let v := m * 2 ^ shift
    if 2 ^ 1024 ≤ v then none else some v

/-- The IEEE binary64 quotient `N / d` (round to nearest, ties-to-even) of an
integer double `N` by an integer double `d` with `d ≤ N`, rendered by CPython's
correctly-rounded `:.1f` formatting: the quotient double's exact value —
`M * up / dn` with significand `M` and binade grid `up / dn = 2^(E-52)` for
`E = ⌊log₂ (N/d)⌋` — is rounded to one decimal with round-half-even and
printed with exactly one digit after the point. -/
def ieee_quot_1f (N d : Nat) : String :=
  let E := natLog2 (N / d)
  let up := if 52 ≤ E then 2 ^ (E - 52) else 1
  let dn := if 52 ≤ E then 1 else 2 ^ (52 - E)
  let A := N * dn
  let B := d * up
  let m0 := A / B
  let r := A % B
  let M :=
    if 2 * r < B then m0
    else if B < 2 * r then m0 + 1
    else if m0 % 2 = 0 then m0 else m0 + 1
  let tenths := roundHalfEvenDiv (10 * M * up) dn
  toString (tenths / 10) ++ "." ++ toString (tenths % 10)

/-- Python's `f"{num / den:.1f}"` for a non-negative integer `num` and a
positive integer `den` that is itself an exact double (here 1000 or 10^6),
with exact binary64 semantics: `num` is converted to the nearest double, the
IEEE division by `den` rounds to the nearest double again, and the resulting
double is rendered to one decimal.  Ties of the exact rational quotient (such
as 2450/1000) are therefore decided by the direction of the binary rounding
error, not by half-even on the exact quotient.  In the overflow range
(integers at or beyond `2^1024 - 2^970`) CPython raises OverflowError; this
model renders "inf" there, and every theorem below stays strictly inside the
convertible range. -/
def py_fmt_1f (num den : Nat) : String :=
  match roundNatToDouble num with
  | none => "inf"
  | some N => ieee_quot_1f N den

/-- Embedding of `format_count` (`visualization.py` lines 7-13) over the
integers: counts at or above one million render as millions to one decimal with
an `m` suffix, counts at or above one thousand as thousands to one decimal with
a `k` suffix, and anything below one thousand (including every negative input)
falls through to `f"{count:.0f}"`, which for an integer is its plain decimal
rendering. -/
def format_count (count : Int) : String :=
  if 1000000 ≤ count then py_fmt_1f count.toNat 1000000 ++ "m"
  else if 1000 ≤ count then py_fmt_1f count.toNat 1000 ++ "k"
  else toString count

/-- The rendering `lambda x: format_count(x) if pd.notnull(x) else "N/A"`
applied by `create_summary_table` to each of the four download columns
(`visualization.py` lines 102-113). -/
def render_download_cell (x : Option Int) : String :=
  match x with
  | some v => format_count v
  | none => "N/A"

/-- The row produced for one `repo` group by
`df.groupby("repo").last()` in `create_summary_table`. -/
structure LatestRow where
  timestamp : Nat
  stars : Int
  latest_release_version : String
  published_at : String
  daily_downloads : Option Int
  weekly_downloads : Option Int
  monthly_downloads : Option Int
  total_downloads : Option Int
deriving DecidableEq

/-- pandas `GroupBy.last` on one nullable column: the last non-null entry, in
the dataframe's stored row order (null only when every entry is null). -/
def last_non_null : List (Option Int) → Option Int
  | [] => none
  | x :: xs =>
    match last_non_null xs with
    | some v => some v
    | none => x

/-- Embedding of `df.groupby("repo").last()` (`visualization.py` line 92) for
one group, given that group's rows in stored order.  pandas `GroupBy.last`
takes, for each column independently, the last non-null value of the group in
row order.  The columns that are never null in this dataset (timestamp, stars
and the two string columns) therefore take the positionally last row's value;
each of the four nullable download columns takes its own last non-null value,
which may come from an earlier row than the last one. -/
def group_last : List Snapshot → Option LatestRow
  | [] => none
  | [r] => some ⟨r.timestamp, r.stars, r.latest_release_version, r.published_at,
      r.daily_downloads, r.weekly_downloads, r.monthly_downloads, r.total_downloads⟩
  | r :: s :: rs =>
    match group_last (s :: rs) with
    | none => none
    | some lr =>
      some { lr with
        daily_downloads :=
          match lr.daily_downloads with
          | some v => some v
          | none => r.daily_downloads,
        weekly_downloads :=
          match lr.weekly_downloads with
          | some v => some v
          | none => r.weekly_downloads,
        monthly_downloads :=
          match lr.monthly_downloads with
          | some v => some v
          | none => r.monthly_downloads,
        total_downloads :=
          match lr.total_downloads with
          | some v => some v
          | none => r.total_downloads }

/-- The distinct `repo` keys of a dataset.  pandas `groupby("repo")` sorts the
group keys alphabetically; the claims below only quantify over the keys or look
one key up, so the embedding keeps them in first-appearance order (a
permutation of pandas' order that affects no claim). -/
def repo_keys (df : List Snapshot) : List String :=
  (df.map (fun r => r.repo)).eraseDups

/-- The `groupby("repo").last()` row of a dataset for one repo key (`none` when
the dataset has no row with that key). -/
def latest_row_for (df : List Snapshot) (key : String) : Option LatestRow :=
  group_last (df.filter (fun r => r.repo = key))

/-- The four download cells that `create_summary_table` renders for one repo
key (`visualization.py` lines 91-113): compute the `groupby("repo").last()` row
and pass each of its four download fields through
`format_count(x) if pd.notnull(x) else "N/A"`. -/
def summary_download_cells (df : List Snapshot) (key : String) :
    Option (String × String × String × String) :=
  (latest_row_for df key).map (fun lr =>
    (render_download_cell lr.daily_downloads,
     render_download_cell lr.weekly_downloads,
     render_download_cell lr.monthly_downloads,
     render_download_cell lr.total_downloads))

/-- The repo names given a downloads trace by `fig2` in `create_plots`
(`visualization.py` lines 52-56): the loop iterates the distinct repo values of
`daily_data` — the dataset's repo keys plus the synthetic "All Repos" — and
adds a trace named `f"{repo} Downloads"` for every repo except the literals
"All Repos" and "mqt-ddvis".  (pandas sorts the group keys; the claims below
only concern membership in this list, which sorting does not change.) -/
def fig2_trace_repos (df : List Snapshot) : List String :=
  (repo_keys df ++ ["All Repos"]).filter
    (fun repo => repo ≠ "All Repos" ∧ repo ≠ "mqt-ddvis")

/-- The latest-state view of a dataset: one `groupby("repo").last()` row per
distinct repo key. -/
def latest_view (df : List Snapshot) : List LatestRow :=
  (repo_keys df).filterMap (latest_row_for df)

/-- Modelled from the spec: `create_summary_cards` is imported from the
visualization module by the web route (`app.py` line 7) but its definition is
absent from the source tree.  Per the spec (§4.3) it loads the dataset, derives
the latest-state view, produces the latest-state rows sorted by stars
descending and by total downloads descending, and computes `total_stars` as
the sum of latest-state stars and `total_downloads` as the sum of the
`total_downloads` column across the entire historical dataset (absent values
contributing nothing, i.e. 0). -/
def create_summary_cards (df : List Snapshot) :
    List LatestRow × List LatestRow × Int × Int :=
  let latest := latest_view df
  let sorted_by_stars := latest.mergeSort (fun a b => decide (b.stars ≤ a.stars))
  let sorted_by_downloads := latest.mergeSort
    (fun a b => decide ((b.total_downloads.getD 0) ≤ (a.total_downloads.getD 0)))
  let total_stars := (latest.map (fun lr => lr.stars)).sum
  let total_downloads := (df.map (fun r => r.total_downloads.getD 0)).sum
  (sorted_by_stars, sorted_by_downloads, total_stars, total_downloads)

/-! Concrete fixtures used by counterexamples and witnesses: fixed fetcher
oracles and small concrete datasets. -/

/-- A fixed GitHub-fetcher oracle: every repository reports 7 stars and one
release. -/
def gh_fixture : String → String → GithubData :=
  fun _ _ => ⟨7, "v1.0.0", "2024-03-05T00:00:00Z"⟩

/-- A fixed PyPI-fetcher oracle: every package reports counts 1, 2, 3, 4. -/
def py_fixture : String → DownloadCounts :=
  fun _ => ⟨1, 2, 3, 4⟩

/-- A dataset row from an earlier collection run (timestamp 0), present in
`data/mqt.csv` before a new run executes. -/
def prior_row : Snapshot :=
  ⟨0, "mqt-core", 100, "v0.1.0", "2023-01-01T00:00:00Z",
   some 1, some 2, some 3, some 5000⟩

/-- The earlier (T1 = 1) of two snapshots of one repository, with a null
`daily_downloads` field. -/
def row_t1 : Snapshot := ⟨1, "mqt-core", 100, "v1", "p1", none, some 2, some 2, some 5000⟩

/-- The later (T2 = 2) of two snapshots of one repository, with every field
present. -/
def row_t2 : Snapshot := ⟨2, "mqt-core", 150, "v2", "p2", some 3, some 3, some 3, some 6000⟩

/-- A dataset holding both snapshots of the repository, stored with the T2 row
first: the claim about the latest-state view quantifies over every dataset, and
nothing in `create_summary_table` orders rows by timestamp before grouping. -/
def ds_mixed : List Snapshot := [row_t2, row_t1]

/-- The end-to-end example dataset of spec §8: `mqt-core` with two historical
rows (stars 100 / total 5000, then stars 150 / total 6000) and `mqt-core2` with
one row (stars 50, no downloads). -/
def ds_example : List Snapshot := [
  ⟨1, "mqt-core", 100, "v1", "p1", some 1, some 1, some 1, some 5000⟩,
  ⟨2, "mqt-core", 150, "v2", "p2", some 1, some 1, some 1, some 6000⟩,
  ⟨1, "mqt-core2", 50, "v1", "p1", none, none, none, none⟩]

/-! Helper lemmas about the retry loop, shared by several claims. -/

/-- The retry loop consumes a block of 429 responses, sleeping 60 seconds for
each, and returns the payload of the first non-429 response. -/
theorem get_pepy_data_first_ok {α : Type} (pre : List (HttpResponse α))
    (r : HttpResponse α) (rest : List (HttpResponse α))
    (h429 : ∀ p ∈ pre, p.status_code = 429) (hok : r.status_code ≠ 429) :
    get_pepy_data (pre ++ r :: rest) = some (List.replicate pre.length 60, r.json) := by
  induction pre with
  | nil =>
    simp only [List.nil_append, get_pepy_data, if_neg hok, List.length_nil,
      List.replicate_zero]
  | cons p ps ih =>
    have hp : p.status_code = 429 := h429 p (List.mem_cons_self p ps)
    have hps : ∀ q ∈ ps, q.status_code = 429 :=
      fun q hq => h429 q (List.mem_cons_of_mem p hq)
    simp only [List.cons_append, get_pepy_data, if_pos hp, List.append_eq, ih hps,
      List.length_cons, List.replicate_succ]

/-- If every response in the sequence is a 429, the retry loop exhausts the
sequence without returning: the Python loop is still retrying. -/
theorem get_pepy_data_all_429 {α : Type} (rs : List (HttpResponse α))
    (h : ∀ p ∈ rs, p.status_code = 429) : get_pepy_data rs = none := by
  induction rs with
  | nil => rfl
  | cons p ps ih =>
    have hp : p.status_code = 429 := h p (List.mem_cons_self p ps)
    have hps : ∀ q ∈ ps, q.status_code = 429 :=
      fun q hq => h q (List.mem_cons_of_mem p hq)
    simp only [get_pepy_data, if_pos hp, ih hps]

/-- Claim C4: for every sequence of responses from the aggregate-download
service, `get_pepy_data` sleeps a fixed 60 seconds after each HTTP 429
response, retries without any attempt bound (a sequence of nothing but 429s
never produces a result or an error — the loop just keeps going), and returns
the JSON payload of the first non-429 response without surfacing any error to
the caller. -/
theorem pepy_retry_loop_spec {α : Type} (pre : List (HttpResponse α))
    (r : HttpResponse α) (rest : List (HttpResponse α))
    (h429 : ∀ p ∈ pre, p.status_code = 429) (hok : r.status_code ≠ 429) :
    get_pepy_data (pre ++ r :: rest) = some (List.replicate pre.length 60, r.json) ∧
    ∀ rs : List (HttpResponse α), (∀ p ∈ rs, p.status_code = 429) →
      get_pepy_data rs = none :=
  ⟨get_pepy_data_first_ok pre r rest h429 hok,
   fun rs h => get_pepy_data_all_429 rs h⟩

/-- Claim C4, witness: an HTTP 429 followed by a 200 yields one 60-second
sleep and the 200's payload. -/
theorem pepy_retry_loop_spec_witness :
    (∀ p ∈ ([⟨429, 0⟩] : List (HttpResponse Nat)), p.status_code = 429) ∧
    (⟨200, 42⟩ : HttpResponse Nat).status_code ≠ 429 ∧
    get_pepy_data (([⟨429, 0⟩] : List (HttpResponse Nat)) ++ (⟨200, 42⟩ : HttpResponse Nat) :: []) =
      some (List.replicate ([⟨429, 0⟩] : List (HttpResponse Nat)).length 60,
        (⟨200, 42⟩ : HttpResponse Nat).json) :=
  ⟨by decide, by decide,
   (pepy_retry_loop_spec [⟨429, 0⟩] ⟨200, 42⟩ [] (by decide) (by decide)).1⟩

/-- Claim C10: when the aggregate service's first response has any non-429
status (404 and 500 included) and its JSON body lacks the `total_downloads`
key, the retry loop performs no retry and no sleep, and `get_pypi_data`
returns a result whose `total_downloads` is 0; the upstream status is never
surfaced as an error. -/
theorem pypi_missing_total_defaults_zero (stats : HttpResponse PyPIStatsBody)
    (r : HttpResponse (List (String × Int)))
    (rest : List (HttpResponse (List (String × Int))))
    (hok : r.status_code ≠ 429) (hkey : r.json.lookup "total_downloads" = none) :
    get_pepy_data (r :: rest) = some ([], r.json) ∧
    get_pypi_data stats (r :: rest) = some
      { daily_downloads := dict_getD (stats.json.data.getD []) "last_day" 0,
        weekly_downloads := dict_getD (stats.json.data.getD []) "last_week" 0,
        monthly_downloads := dict_getD (stats.json.data.getD []) "last_month" 0,
        total_downloads := 0 } := by
  have hfirst : get_pepy_data (r :: rest) = some ([], r.json) :=
    get_pepy_data_first_ok [] r rest (by intro p hp; cases hp) hok
  refine ⟨hfirst, ?_⟩
  simp only [get_pypi_data, hfirst, dict_getD, hkey, Option.getD_none]

/-- Claim C10, witness: a 404 whose body lacks `total_downloads` yields
`total_downloads = 0` immediately, with the recent counters taken from the
pypistats body. -/
theorem pypi_missing_total_defaults_zero_witness :
    (⟨404, [("detail", 1)]⟩ : HttpResponse (List (String × Int))).status_code ≠ 429 ∧
    (⟨404, [("detail", 1)]⟩ : HttpResponse (List (String × Int))).json.lookup "total_downloads" = none ∧
    (get_pepy_data [(⟨404, [("detail", 1)]⟩ : HttpResponse (List (String × Int)))] =
      some ([], [("detail", 1)]) ∧
     get_pypi_data
        (⟨200, ⟨some [("last_day", 5), ("last_week", 6), ("last_month", 7)]⟩⟩ :
          HttpResponse PyPIStatsBody)
        [(⟨404, [("detail", 1)]⟩ : HttpResponse (List (String × Int)))] = some
      { daily_downloads :=
          dict_getD ((⟨200, ⟨some [("last_day", 5), ("last_week", 6), ("last_month", 7)]⟩⟩ :
            HttpResponse PyPIStatsBody).json.data.getD []) "last_day" 0,
        weekly_downloads :=
          dict_getD ((⟨200, ⟨some [("last_day", 5), ("last_week", 6), ("last_month", 7)]⟩⟩ :
            HttpResponse PyPIStatsBody).json.data.getD []) "last_week" 0,
        monthly_downloads :=
          dict_getD ((⟨200, ⟨some [("last_day", 5), ("last_week", 6), ("last_month", 7)]⟩⟩ :
            HttpResponse PyPIStatsBody).json.data.getD []) "last_month" 0,
        total_downloads := 0 }) :=
  ⟨by decide, by decide,
   pypi_missing_total_defaults_zero
     ⟨200, ⟨some [("last_day", 5), ("last_week", 6), ("last_month", 7)]⟩⟩
     ⟨404, [("detail", 1)]⟩ [] (by decide) (by decide)⟩

/-- Claim C6: for every non-negative integer count small enough for Python's
float conversion (below `2^1024 - 2^970`, where the conversion would raise
OverflowError instead of returning), `format_count` renders counts of a
million or more as `"{n/1e6:.1f}m"`, counts of a thousand or more as
`"{n/1e3:.1f}k"` — both with the program's IEEE binary64 semantics — and
smaller counts as the plain integer with no decimal.  The quoted examples 999,
1500 and 2300000 render as "999", "1.5k" and "2.3m", and the decimal-tie
inputs 1050, 1150, 2450, 4450 and 2450000, where the binary rounding error of
the double quotient decides the digit, render exactly as CPython does. -/
theorem format_count_scaling_rule (n : Int) (h : 0 ≤ n)
    (hconv : n < 2 ^ 1024 - 2 ^ 970) :
    (1000000 ≤ n → format_count n = py_fmt_1f n.toNat 1000000 ++ "m") ∧
    (1000 ≤ n → n < 1000000 → format_count n = py_fmt_1f n.toNat 1000 ++ "k") ∧
    (n < 1000 → format_count n = toString n) ∧
    format_count 999 = "999" ∧ format_count 1500 = "1.5k" ∧
    format_count 2300000 = "2.3m" ∧
    format_count 1050 = "1.1k" ∧ format_count 1150 = "1.1k" ∧
    format_count 2450 = "2.5k" ∧ format_count 4450 = "4.5k" ∧
    format_count 2450000 = "2.5m" := by
  refine ⟨?_, ?_, ?_, by decide, by decide, by decide, by decide, by decide,
    by decide, by decide, by decide⟩
  · intro h6
    simp only [format_count, if_pos h6]
  · intro h3 h6
    simp only [format_count, if_neg (not_le.mpr h6), if_pos h3]
  · intro h3
    have h6 : ¬ (1000000 : Int) ≤ n :=
      not_le.mpr (lt_trans h3 (by norm_num : (1000 : Int) < 1000000))
    simp only [format_count, if_neg h6, if_neg (not_le.mpr h3)]

/-- Claim C6, witness: the rule applied at 1500, which is non-negative and
well inside the float-convertible range. -/
theorem format_count_scaling_rule_witness :
    (0 : Int) ≤ 1500 ∧ (1500 : Int) < 2 ^ 1024 - 2 ^ 970 ∧
    ((1000000 ≤ (1500 : Int) → format_count 1500 = py_fmt_1f (1500 : Int).toNat 1000000 ++ "m") ∧
     (1000 ≤ (1500 : Int) → (1500 : Int) < 1000000 →
        format_count 1500 = py_fmt_1f (1500 : Int).toNat 1000 ++ "k") ∧
     ((1500 : Int) < 1000 → format_count 1500 = toString (1500 : Int)) ∧
     format_count 999 = "999" ∧ format_count 1500 = "1.5k" ∧
     format_count 2300000 = "2.3m" ∧
     format_count 1050 = "1.1k" ∧ format_count 1150 = "1.1k" ∧
     format_count 2450 = "2.5k" ∧ format_count 4450 = "4.5k" ∧
     format_count 2450000 = "2.5m") :=
  ⟨by decide, by norm_num, format_count_scaling_rule 1500 (by decide) (by norm_num)⟩

/-- Every row assembled by `collect_data`'s loop body carries the run's single
timestamp, whichever branch produced it. -/
theorem collect_row_timestamp (t : Nat) (gh : String → String → GithubData)
    (py : String → DownloadCounts) (e : RepoEntry) :
    (collect_row t gh py e).timestamp = t := by
  cases h : e.pypi_package <;> simp [collect_row, h]

/-- Claim C1 (refuted by the code): `collect_data` persists via
`repo_data.to_csv("data/mqt.csv")` without ever reading the existing file, so
the written dataset is exactly the new batch whatever was there before, every
written row carries the new run's timestamp, and a concrete prior row
(timestamp 0) is absent from the file written by a run at timestamp 1 — prior
rows are not preserved. -/
theorem collect_data_discards_prior_rows :
    (∀ (old : List Snapshot) (t : Nat) (gh : String → String → GithubData)
       (py : String → DownloadCounts),
       collect_data_write old t gh py = collect_data t gh py) ∧
    (∀ (t : Nat) (gh : String → String → GithubData)
       (py : String → DownloadCounts) (r : Snapshot),
       r ∈ collect_data t gh py → r.timestamp = t) ∧
    prior_row ∉ collect_data_write [prior_row] 1 gh_fixture py_fixture := by
  have hts : ∀ (t : Nat) (gh : String → String → GithubData)
      (py : String → DownloadCounts) (r : Snapshot),
      r ∈ collect_data t gh py → r.timestamp = t := by
    intro t gh py r hr
    obtain ⟨e, _, heq⟩ := List.mem_map.mp hr
    rw [← heq]
    exact collect_row_timestamp t gh py e
  refine ⟨fun _ _ _ _ => rfl, hts, ?_⟩
  intro hmem
  have h1 : prior_row.timestamp = 1 := hts 1 gh_fixture py_fixture prior_row hmem
  exact absurd h1 (by decide)

/-- Claim C7 (refuted by the code): the snapshot written for the first
registry entry identifies the repository as "mqt-core" (its PyPI package
name), while the source-host path component of that entry is "core" — the
`repo` field is not a single identifier shared with the source-host path. -/
theorem repo_field_differs_from_github_name :
    ((collect_data 0 gh_fixture py_fixture).head?).map (fun r => r.repo) = some "mqt-core" ∧
    (repos.head?).map (fun e => e.github_repo) = some "core" ∧
    ("mqt-core" : String) ≠ "core" :=
  ⟨rfl, rfl, by decide⟩

/-- Claim C7 as amended: for every run, the `repo` field of the snapshot for
each registry entry equals that entry's PyPI package identifier when it has
one and its GitHub repository name otherwise. -/
theorem repo_field_rule (t : Nat) (gh : String → String → GithubData)
    (py : String → DownloadCounts) :
    (collect_data t gh py).map (fun r => r.repo) =
      repos.map (fun e => e.pypi_package.getD e.github_repo) := rfl

/-- Claim C8 (refuted by the code): the dataset written by a collection run
identifies the ddvis repository as "ddvis" (it has no package identifier, so
its GitHub name is used), the downloads figure's exclusion filter only removes
the literal "mqt-ddvis", which no row carries — so the downloads-over-time
figure does contain a trace for ddvis. -/
theorem fig2_exclusion_misses_ddvis :
    "ddvis" ∈ (collect_data 0 gh_fixture py_fixture).map (fun r => r.repo) ∧
    "ddvis" ∈ fig2_trace_repos (collect_data 0 gh_fixture py_fixture) ∧
    "mqt-ddvis" ∉ (collect_data 0 gh_fixture py_fixture).map (fun r => r.repo) :=
  ⟨by decide, by decide, by decide⟩

/-- Claim C2 (refuted by the code): on a dataset holding two snapshots of one
repository at timestamps 1 < 2, stored with the T2 row first,
`groupby("repo").last()` yields a row whose stars value is the T1 snapshot's
(not the T2 snapshot's) while its daily-downloads value is the T2 snapshot's —
the view mixes fields of the two snapshots instead of selecting the entire T2
row. -/
theorem groupby_last_mixes_snapshots :
    row_t1.timestamp < row_t2.timestamp ∧
    latest_row_for ds_mixed "mqt-core" =
      some ⟨1, 100, "v1", "p1", some 3, some 2, some 2, some 5000⟩ ∧
    (100 : Int) = row_t1.stars ∧ row_t1.stars ≠ row_t2.stars ∧
    (some 3 : Option Int) = row_t2.daily_downloads ∧
    row_t2.daily_downloads ≠ row_t1.daily_downloads := by decide

/-- Claim C2 as amended: `groupby("repo").last()` takes, for each column
independently, the last non-null value in stored row order; when the
repository's rows are stored in timestamp order (the T1 row before the T2 row)
and every nullable field of the T2 snapshot is present, the view is the entire
T2 row. -/
theorem latest_view_selects_T2_when_ordered_and_complete
    (df : List Snapshot) (key : String) (r1 r2 : Snapshot)
    (hfilter : df.filter (fun r => r.repo = key) = [r1, r2])
    (hts : r1.timestamp < r2.timestamp)
    (hd : r2.daily_downloads.isSome = true)
    (hw : r2.weekly_downloads.isSome = true)
    (hm : r2.monthly_downloads.isSome = true)
    (ht : r2.total_downloads.isSome = true) :
    latest_row_for df key = some ⟨r2.timestamp, r2.stars,
      r2.latest_release_version, r2.published_at, r2.daily_downloads,
      r2.weekly_downloads, r2.monthly_downloads, r2.total_downloads⟩ := by
  obtain ⟨dv, hdv⟩ := Option.isSome_iff_exists.mp hd
  obtain ⟨wv, hwv⟩ := Option.isSome_iff_exists.mp hw
  obtain ⟨mv, hmv⟩ := Option.isSome_iff_exists.mp hm
  obtain ⟨tv, htv⟩ := Option.isSome_iff_exists.mp ht
  unfold latest_row_for
  rw [hfilter]
  simp [group_last, hdv, hwv, hmv, htv]

/-- Claim C2 as amended, witness: with the two snapshots stored in timestamp
order and a complete T2 row, the view is exactly the T2 row. -/
theorem latest_view_selects_T2_witness :
    [row_t1, row_t2].filter (fun r => r.repo = "mqt-core") = [row_t1, row_t2] ∧
    row_t1.timestamp < row_t2.timestamp ∧
    row_t2.daily_downloads.isSome = true ∧
    row_t2.weekly_downloads.isSome = true ∧
    row_t2.monthly_downloads.isSome = true ∧
    row_t2.total_downloads.isSome = true ∧
    latest_row_for [row_t1, row_t2] "mqt-core" =
      some ⟨row_t2.timestamp, row_t2.stars, row_t2.latest_release_version,
        row_t2.published_at, row_t2.daily_downloads, row_t2.weekly_downloads,
        row_t2.monthly_downloads, row_t2.total_downloads⟩ :=
  ⟨by decide, by decide, by decide, by decide, by decide, by decide,
   latest_view_selects_T2_when_ordered_and_complete [row_t1, row_t2] "mqt-core"
     row_t1 row_t2 (by decide) (by decide) (by decide) (by decide) (by decide)
     (by decide)⟩

/-- Claim C3: in the summary cards, `total_stars` sums stars over the
latest-state row of each repository only, while `total_downloads` sums the
`total_downloads` column over every historical row of the dataset (superseded
snapshots included); on the spec's end-to-end example dataset this gives a
2-row latest view, `total_stars = 200` and `total_downloads = 11000`
(5000 + 6000 + 0, the superseded 5000 counted). -/
theorem summary_cards_totals :
    (∀ df : List Snapshot,
       (create_summary_cards df).2.2.1 =
         ((latest_view df).map (fun lr => lr.stars)).sum ∧
       (create_summary_cards df).2.2.2 =
         (df.map (fun r => r.total_downloads.getD 0)).sum) ∧
    (latest_view ds_example).length = 2 ∧
    (create_summary_cards ds_example).2.2.1 = 200 ∧
    (create_summary_cards ds_example).2.2.2 = 11000 :=
  ⟨fun _ => ⟨rfl, rfl⟩, by decide, by decide, by decide⟩

/-- Claim C5: for every registry entry without a package identifier, every
collection run synthesizes a snapshot for it whose four download fields are
absent (`none`, not 0), and the summary table's latest-state view renders each
of those four fields as the literal "N/A". -/
theorem missing_package_renders_NA (t : Nat) (gh : String → String → GithubData)
    (py : String → DownloadCounts) (e : RepoEntry)
    (he : e ∈ repos) (hp : e.pypi_package = none) :
    (∃ row ∈ collect_data t gh py,
       row.repo = e.github_repo ∧ row.daily_downloads = none ∧
       row.weekly_downloads = none ∧ row.monthly_downloads = none ∧
       row.total_downloads = none) ∧
    summary_download_cells (collect_data t gh py) e.github_repo =
      some ("N/A", "N/A", "N/A", "N/A") := by
  constructor
  · refine ⟨collect_row t gh py e, List.mem_map_of_mem _ he, ?_⟩
    simp [collect_row, hp]
  · simp only [repos, List.mem_cons, List.not_mem_nil, or_false] at he
    rcases he with rfl|rfl|rfl|rfl|rfl|rfl|rfl|rfl|rfl|rfl|rfl|rfl|rfl|rfl|rfl|rfl|rfl|rfl|rfl|rfl|rfl|rfl|rfl
    all_goals first
      | exact absurd hp (by decide)
      | rfl

/-- Claim C5, witness: the ddvis registry entry has no package identifier; at
a concrete run its snapshot carries four absent download fields and its
summary cells all render "N/A". -/
theorem missing_package_renders_NA_witness :
    (⟨"ddvis", "munich-quantum-toolkit", none⟩ : RepoEntry) ∈ repos ∧
    (⟨"ddvis", "munich-quantum-toolkit", none⟩ : RepoEntry).pypi_package = none ∧
    ((∃ row ∈ collect_data 0 gh_fixture py_fixture,
        row.repo = (⟨"ddvis", "munich-quantum-toolkit", none⟩ : RepoEntry).github_repo ∧
        row.daily_downloads = none ∧ row.weekly_downloads = none ∧
        row.monthly_downloads = none ∧ row.total_downloads = none) ∧
     summary_download_cells (collect_data 0 gh_fixture py_fixture)
        (⟨"ddvis", "munich-quantum-toolkit", none⟩ : RepoEntry).github_repo =
       some ("N/A", "N/A", "N/A", "N/A")) :=
  ⟨by decide, rfl,
   missing_package_renders_NA 0 gh_fixture py_fixture _ (by decide) rfl⟩

end MqtDashboard
